import Mathlib

/-!
# Verification of the CP_mri multi-resolution image accessor

Shallow embedding of `src/cp_mri/mri.py` (class `MRI`): the pyramid
descriptor loaded by `MRI.__init__`, the level-geometry queries
(`extent`, `nlevels`, `between_level_scaling_factor`, `convert_px`)
and the pixel readers (`get_region_px`, `get_plane`,
`get_polygonal_region_px`).

Modelling conventions:
* Python `float` values are modelled as `ℚ` (exact arithmetic; IEEE
  rounding of division/multiplication is not modelled — none of the
  verified properties depends on float rounding).
* numpy integer arrays are modelled as a length together with a total
  function `ℕ → ℤ`; numpy scalar indexing, which accepts indices in
  `[-n, n)` and wraps negative ones, is modelled by `npIndex`
  (reads) and `npWriteIdx` (writes).
* Exceptions are modelled by `Except Err`: `Err.runtimeError msg`
  models Python `RuntimeError(msg)`, `Err.keyError` a `KeyError`
  raised by dictionary access, `Err.indexError` a numpy `IndexError`.
* The zarr storage collaborator is modelled by an abstract `Storage`
  structure giving, per level, the stored plane shape and a total
  pixel function; reading it "as dtype" is modelled by reduction
  modulo the dtype modulus (256 for uint8).
* Images (numpy ndarrays) are modelled by `Img`: explicit shape,
  dtype modulus, and a total pixel function.
-/

/-- Error kinds surfaced by the embedded operations. -/
inductive Err where
  | runtimeError (msg : String)
  | keyError
  | indexError
  | valueError
deriving DecidableEq, Repr

/-- One raw record of the `pyramid` metadata attribute, as found in the
zarr attributes: each field may be absent (Python dict access raises
`KeyError` on a missing field).  `downsample_factor` is a JSON number,
modelled as `ℚ`. -/
structure RawEntry where
  level : Option ℤ
  width : Option ℤ
  height : Option ℤ
  downsample_factor : Option ℚ
deriving DecidableEq, Repr

/-- The state built by `MRI.__init__`: number of levels, the
`_pyramid_levels` array (widths row and heights row) and the
`_downsample_factors` int array, each modelled as total functions on
column index. -/
structure MRIState where
  n : ℕ
  widths : ℕ → ℤ
  heights : ℕ → ℤ
  factors : ℕ → ℤ

/-- numpy scalar read from a 1-D (or one axis of a 2-D) integer array of
length `n`: indices in `[0, n)` read directly, indices in `[-n, 0)`
wrap to the end, anything else raises `IndexError`. -/
def npIndex (n : ℕ) (f : ℕ → ℤ) (i : ℤ) : Except Err ℤ :=
  if 0 ≤ i ∧ i < (n : ℤ) then .ok (f i.toNat)
  else if -(n : ℤ) ≤ i ∧ i < 0 then .ok (f ((n : ℤ) + i).toNat)
  else .error .indexError

/-- numpy scalar write at index `i` into an array of length `n`
(same index semantics as `npIndex`): returns the updated function. -/
def npWriteIdx (n : ℕ) (f : ℕ → ℤ) (i : ℤ) (v : ℤ) : Except Err (ℕ → ℤ) :=
  if 0 ≤ i ∧ i < (n : ℤ) then .ok (fun k => if k = i.toNat then v else f k)
  else if -(n : ℤ) ≤ i ∧ i < 0 then .ok (fun k => if k = ((n : ℤ) + i).toNat then v else f k)
  else .error .indexError

/-- Python `int(q)` applied to a float: truncation toward zero. -/
def pyInt (q : ℚ) : ℤ :=
  if 0 ≤ q then q.floor else q.ceil

/-- Python `p[field]` on a dict: the value when present, `KeyError`
otherwise. -/
def reqField {α : Type} : Option α → Except Err α
  | some v => .ok v
  | none => .error .keyError

/-- The loop body of `MRI.__init__`:
`for p in self._pyramid:
   self._pyramid_levels[:, p['level']] = [p['width'], p['height']]
   self._downsample_factors[p['level']] = p['downsample_factor']`.
Python evaluates the first statement's right-hand side
`[p['width'], p['height']]` (a missing key raises `KeyError`), then the
subscript index `p['level']` (`KeyError`), then performs the column
write — the point where an out-of-range level raises `IndexError` —
and only afterwards reads `p['downsample_factor']` (`KeyError`) for
the second statement's write.  The column write stores both rows in
one setitem; it is modelled as two writes at the same index, whose
error conditions coincide.  The `dtype=int` destination truncates the
float `downsample_factor` toward zero. -/
def initLoop (n : ℕ) (ws hs fs : ℕ → ℤ) :
    List RawEntry → Except Err ((ℕ → ℤ) × (ℕ → ℤ) × (ℕ → ℤ))
  | [] => .ok (ws, hs, fs)
  | e :: rest => do
    let w ← reqField e.width
    let h ← reqField e.height
    let lvl ← reqField e.level
    let ws2 ← npWriteIdx n ws lvl w
    let hs2 ← npWriteIdx n hs lvl h
    let d ← reqField e.downsample_factor
    let fs2 ← npWriteIdx n fs lvl (pyInt d)
    initLoop n ws2 hs2 fs2 rest

/-- `MRI.__init__`: reads the `pyramid` attribute (absent attribute ⇒
`KeyError`), allocates zero arrays sized to the entry count, and runs
the population loop.  No validation of dimensions, factors,
contiguity or duplication is performed beyond what the array
accesses themselves raise. -/
def mriInit (attrs : Option (List RawEntry)) : Except Err MRIState :=
  match attrs with
  | none => .error .keyError
  | some pyramid => do
    let (ws, hs, fs) ← initLoop pyramid.length (fun _ => 0) (fun _ => 0) (fun _ => 0) pyramid
    .ok ⟨pyramid.length, ws, hs, fs⟩

namespace MRI

/-- `MRI.nlevels`. -/
def nlevels (st : MRIState) : ℕ := st.n

/-- `MRI.extent`: `tuple(self._pyramid_levels[:, level])` — numpy
column indexing, so negative levels in `[-n, 0)` wrap and only levels
outside `[-n, n)` raise `IndexError`. -/
def extent (st : MRIState) (level : ℤ) : Except Err (ℤ × ℤ) := do
  let w ← npIndex st.n st.widths level
  let h ← npIndex st.n st.heights level
  .ok (w, h)

/-- `MRI.between_level_scaling_factor`:
`f = self._downsample_factors[from_level] / self._downsample_factors[to_level]`
— numpy scalar indexing (wrapping negatives) followed by float
division of the two stored integers. -/
def between_level_scaling_factor (st : MRIState) (from_level to_level : ℤ) :
    Except Err ℚ := do
  let a ← npIndex st.n st.factors from_level
  let b ← npIndex st.n st.factors to_level
  .ok ((a : ℚ) / (b : ℚ))

/-- `MRI.convert_px`: returns the point unchanged when
`from_level == to_level` (before any array access), otherwise scales
both coordinates by the between-level scaling factor. -/
def convert_px (st : MRIState) (point : ℚ × ℚ) (from_level to_level : ℤ) :
    Except Err (ℚ × ℚ) :=
  if from_level = to_level then .ok point
  else do
    let f ← between_level_scaling_factor st from_level to_level
    .ok (point.1 * f, point.2 * f)

end MRI

/-- The zarr storage collaborator (external, specified at its
interface): per level, the stored plane's shape (rows × cols ×
channels, the trailing channel axis required by the 3-index slice of
`get_region_px`) and a total raw-pixel function over non-negative
indices (level, row, col, channel). -/
structure Storage where
  shapeH : ℕ → ℕ
  shapeW : ℕ → ℕ
  channels : ℕ
  px : ℕ → ℕ → ℕ → ℕ → ℕ

/-- A numpy ndarray holding pixels: shape (h × w × c), dtype modulus
(256 for uint8) and a total value function (row, col, channel). -/
@[ext]
structure Img where
  h : ℕ
  w : ℕ
  c : ℕ
  dtypeMod : ℕ
  px : ℕ → ℕ → ℕ → ℕ

/-- numpy basic-slice boundary for `a[s:t]` on an axis of length `n`
(step 1): a negative endpoint counts from the end, and both are
clipped into `[0, n]`. -/
def npSliceBound (v : ℤ) (n : ℕ) : ℕ :=
  if v < 0 then (max (v + n) 0).toNat else (min v (n : ℤ)).toNat

/-- `MRI.get_region_px`: validates the level (explicit check, so no
numpy wrap here), then checks
`x0 >= widths[level] or y0 >= heights[level] or x0+width > widths[level]
or y0+height > heights[level]` — note no check for a negative origin —
then reads the zarr block `[y0:y0+height, x0:x0+width, :]` cast to the
requested dtype (`% m`).  The slice follows numpy semantics
(`npSliceBound` on each endpoint over the STORED plane's shape), so a
negative origin wraps: e.g. `[-1:1]` on a length-100 axis is the empty
range 99:1. -/
def MRI.get_region_px (st : MRIState) (stor : Storage)
    (x0 y0 width height : ℤ) (level : ℤ) (m : ℕ) : Except Err Img :=
  if level < 0 ∨ (st.n : ℤ) ≤ level then
    .error (.runtimeError "requested level does not exist")
  else
    if st.widths level.toNat ≤ x0 ∨ st.heights level.toNat ≤ y0 ∨
        st.widths level.toNat < x0 + width ∨ st.heights level.toNat < y0 + height then
      .error (.runtimeError "region out of layer's extent")
    else
      .ok { h := npSliceBound (y0 + height) (stor.shapeH level.toNat) -
                 npSliceBound y0 (stor.shapeH level.toNat),
            w := npSliceBound (x0 + width) (stor.shapeW level.toNat) -
                 npSliceBound x0 (stor.shapeW level.toNat),
            c := stor.channels, dtypeMod := m,
            px := fun i j ch => stor.px level.toNat
              (npSliceBound y0 (stor.shapeH level.toNat) + i)
              (npSliceBound x0 (stor.shapeW level.toNat) + j) ch % m }

/-- `MRI.get_plane`: validates the level, then reads the whole stored
plane `[...]` cast to the requested dtype. -/
def MRI.get_plane (st : MRIState) (stor : Storage) (level : ℤ) (m : ℕ) :
    Except Err Img :=
  if level < 0 ∨ (st.n : ℤ) ≤ level then
    .error (.runtimeError "requested level does not exist")
  else
    .ok { h := stor.shapeH level.toNat, w := stor.shapeW level.toNat,
          c := stor.channels, dtypeMod := m,
          px := fun i j ch => stor.px level.toNat i j ch % m }

/-! ## Polygon geometry (shapely collaborator)

`shapely.geometry.Polygon`, its `bounds`, `shapely.affinity.translate`
and `Point.within` are the external geometry collaborator.  A polygon
is its ordered vertex list (closed ring implied).  `Point.within`
tests strict interior containment — a point on the polygon's boundary
is NOT within it — modelled by the standard even-odd ray-crossing
count together with an explicit on-boundary exclusion, all in exact
rational arithmetic. -/

/-- A caller-supplied closed polygon: its ordered vertices. -/
def Polygon : Type := List (ℚ × ℚ)

/-- The edge list of a polygon: consecutive vertex pairs, closing back
to the first vertex. -/
def Polygon.edges (p : Polygon) : List ((ℚ × ℚ) × (ℚ × ℚ)) :=
  match p with
  | [] => []
  | v :: rest => List.zip (v :: rest) (rest ++ [v])

/-- `shapely.affinity.translate`: shift every vertex by `(dx, dy)`. -/
def Polygon.translate (p : Polygon) (dx dy : ℚ) : Polygon :=
  List.map (fun v => (v.1 + dx, v.2 + dy)) p

/-- Smallest x over the vertices (0 for the empty list; shapely
polygons always have at least three vertices). -/
def Polygon.minX (p : Polygon) : ℚ := match p with
  | [] => 0
  | v :: rest => List.foldl (fun m u => min m u.1) v.1 rest

def Polygon.minY (p : Polygon) : ℚ := match p with
  | [] => 0
  | v :: rest => List.foldl (fun m u => min m u.2) v.2 rest

def Polygon.maxX (p : Polygon) : ℚ := match p with
  | [] => 0
  | v :: rest => List.foldl (fun m u => max m u.1) v.1 rest

def Polygon.maxY (p : Polygon) : ℚ := match p with
  | [] => 0
  | v :: rest => List.foldl (fun m u => max m u.2) v.2 rest

/-- `Polygon.bounds` of shapely: `(minx, miny, maxx, maxy)`. -/
def Polygon.bounds (p : Polygon) : ℚ × ℚ × ℚ × ℚ :=
  (p.minX, p.minY, p.maxX, p.maxY)

/-- Point `q` lies on the closed segment from `a` to `b`. -/
def onSegment (q a b : ℚ × ℚ) : Bool :=
  decide ((b.1 - a.1) * (q.2 - a.2) = (b.2 - a.2) * (q.1 - a.1)) &&
  decide (min a.1 b.1 ≤ q.1) && decide (q.1 ≤ max a.1 b.1) &&
  decide (min a.2 b.2 ≤ q.2) && decide (q.2 ≤ max a.2 b.2)

/-- The horizontal ray from `q` to the right crosses the open edge
`(a, b)` (standard even-odd rule formulation). -/
def rayCrosses (q a b : ℚ × ℚ) : Bool :=
  (decide (q.2 < a.2) != decide (q.2 < b.2)) &&
  decide (q.1 < a.1 + (b.1 - a.1) * (q.2 - a.2) / (b.2 - a.2))

/-- `shapely` `Point(q).within(poly)`: strict interior membership —
false whenever `q` lies on the boundary, otherwise decided by parity
of ray crossings. -/
def Polygon.within (q : ℚ × ℚ) (p : Polygon) : Bool :=
  !(p.edges.any fun e => onSegment q e.1 e.2) &&
  (p.edges.countP fun e => rayCrosses q e.1 e.2) % 2 == 1

/-- The masking loop of `MRI.get_polygonal_region_px`: for each row
`i`, build the 0/1 line mask `lm` of length `w` (`lm[j] = 1` iff
`Point(j, i).within(contour)`) and execute `img[i,] = img[i,] * lm`.
`img[i,]` has shape `(w, c)` and `lm` shape `(w,)`, so numpy broadcasts
`lm` along the TRAILING (channel) axis:
* `h = 0`: the loop body never runs and `img` is returned unchanged;
* `w = c`: the product is `(w, c)` with entry `(j, ch)` equal to
  `img[i,j,ch] * lm[ch]` — the mask is indexed by the CHANNEL, not the
  column — and the assignment succeeds;
* `w = 1`: `lm` has one entry broadcast over all channels, entry
  `(0, ch) = img[i,0,ch] * lm[0]`, and the assignment succeeds;
* otherwise (`w ≠ c` and `w ≠ 1`, e.g. the 40×40 single-channel spec
  example) the multiply or the write-back raises `ValueError` and no
  buffer is returned. -/
def maskOutside (img : Img) (contour : Polygon) : Except Err Img :=
  if img.h = 0 then .ok img
  else if img.w = img.c ∨ img.w = 1 then
    .ok { img with
      px := fun i j ch =>
        img.px i j ch *
          (if Polygon.within (((if img.w = 1 then (0 : ℕ) else ch) : ℚ), (i : ℚ))
              contour then 1 else 0) % img.dtypeMod }
  else .error .valueError

/-- The bounding-rectangle computation of `MRI.get_polygonal_region_px`
(lines 173–176): truncate the polygon's bounds to integers with
Python `int()`, expand by `border`, clamp the low corner at 0 and the
high corner at the level's extent. -/
def MRI.polyBox (st : MRIState) (contour : Polygon) (level : ℤ) (border : ℤ) :
    Except Err (ℤ × ℤ × ℤ × ℤ) := do
  let ext ← MRI.extent st level
  let x0 := max 0 (pyInt contour.minX - border)
  let y0 := max 0 (pyInt contour.minY - border)
  let x1 := min (pyInt contour.maxX + border) ext.1
  let y1 := min (pyInt contour.maxY + border) ext.2
  .ok (x0, y0, x1, y1)

set_option linter.unusedVariables false in
/-- `MRI.get_polygonal_region_px`: compute the clamped bounding box,
translate the contour by `(-x0, -y0)`, read the rectangle — with the
dtype hard-coded to `np.uint8` (modulus 256) regardless of the
caller's `as_type` argument — then run the (broadcast-faulty)
masking loop over the rows of the returned buffer. -/
def MRI.get_polygonal_region_px (st : MRIState) (stor : Storage)
    (contour : Polygon) (level : ℤ) (border : ℤ) (as_type : ℕ) :
    Except Err Img := do
  let box ← MRI.polyBox st contour level border
  let (x0, y0, x1, y1) := box
  let contour2 := contour.translate (-(x0 : ℚ)) (-(y0 : ℚ))
  let img ← MRI.get_region_px st stor x0 y0 (x1 - x0) (y1 - y0) level 256
  maskOutside img contour2


/-! ## Concrete instances used in counterexamples and witnesses -/

/-- A one-level 100×100 pyramid with downsample factor 1. -/
def exSt : MRIState := ⟨1, fun _ => 100, fun _ => 100, fun _ => 1⟩

/-- Storage for `exSt`: a single 100×100 plane with one channel, every
raw sample equal to 7. -/
def exStor : Storage := ⟨fun _ => 100, fun _ => 100, 1, fun _ _ _ _ => 7⟩

/-- The triangular polygon of the spec example: vertices
(10,10), (50,10), (10,50), in pixel units of level 0. -/
def exTri : Polygon := [(10, 10), (50, 10), (10, 50)]

/-- A two-level pyramid: level 0 is 100×100 at factor 1, level 1 is
50×50 at factor 2. -/
def exSt2 : MRIState :=
  ⟨2, fun k => if k = 0 then 100 else 50, fun k => if k = 0 then 100 else 50,
   fun k => if k = 0 then 1 else 2⟩

/-- Storage for `exSt2` with 3 channels and a position-dependent
raw value. -/
def exStor2 : Storage :=
  ⟨fun k => if k = 0 then 100 else 50, fun k => if k = 0 then 100 else 50, 3,
   fun l i j c => l + i + 2 * j + c⟩

/-- A descriptor whose level-1 downsample factor is the non-integral
real 5/2 = 2.5. -/
def exDesc25 : List RawEntry :=
  [⟨some 0, some 100, some 100, some 1⟩, ⟨some 1, some 50, some 50, some (5 / 2)⟩]

/-- A malformed descriptor: duplicated level index 0 (so the level
indices 0,0 are not contiguous) and non-positive width/height in its
first entry. -/
def exDescBad : List RawEntry :=
  [⟨some 0, some 0, some 0, some 1⟩, ⟨some 0, some 5, some 5, some 1⟩]

/-- The spec triangle translated by (−10, −10): vertex (0,0)
corresponds to the original vertex (10,10). -/
def exTriT : Polygon := [(0, 0), (40, 0), (0, 40)]

/-- The rectangular read underlying the spec-triangle polygonal read on
`exStor`: a 40×40 single-channel uint8 buffer of 7s. -/
def exImgBase : Img := ⟨40, 40, 1, 256, fun _ _ _ => 7⟩

/-- Storage like `exStor` but with 40 channels — the one shape family
(width = channels) on which the masking loop completes. -/
def exStor40 : Storage := ⟨fun _ => 100, fun _ => 100, 40, fun _ _ _ _ => 7⟩

/-- The rectangular read for the triangle box over `exStor40`:
40×40×40 of 7s. -/
def exImgBase40 : Img := ⟨40, 40, 40, 256, fun _ _ _ => 7⟩

/-- The buffer the masking loop actually produces from `exImgBase40`:
sample (j, i, ch) is multiplied by the CHANNEL-indexed mask value
`lm[ch]`. -/
def exMasked40 : Img :=
  ⟨40, 40, 40, 256, fun i _ ch =>
    7 * (if Polygon.within ((ch : ℚ), (i : ℚ)) exTriT then 1 else 0) % 256⟩

/-- An entry `MRI.__init__`'s loop processes without raising: all four
fields present and the level inside the numpy-writable range. -/
def entryOk (n : ℕ) (e : RawEntry) : Prop :=
  e.width ≠ none ∧ e.height ≠ none ∧ e.downsample_factor ≠ none ∧
  ∃ l, e.level = some l ∧ -(n : ℤ) ≤ l ∧ l < (n : ℤ)

/-! ## Helper lemmas -/

theorem exceptBind_ok {α β : Type} (a : α) (f : α → Except Err β) :
    (Except.ok a >>= f) = f a := rfl

theorem exceptBind_error {α β : Type} (e : Err) (f : α → Except Err β) :
    ((Except.error e : Except Err α) >>= f) = .error e := rfl

instance {e a : Type} [DecidableEq e] [DecidableEq a] : DecidableEq (Except e a) :=
  fun x y =>
  match x, y with
  | .ok u, .ok v =>
    if h : u = v then .isTrue (h ▸ rfl) else .isFalse (fun hc => h (Except.ok.inj hc))
  | .ok _, .error _ => .isFalse (fun hc => Except.noConfusion hc)
  | .error _, .ok _ => .isFalse (fun hc => Except.noConfusion hc)
  | .error u, .error v =>
    if h : u = v then .isTrue (h ▸ rfl) else .isFalse (fun hc => h (Except.error.inj hc))

/-- `npIndex` in one lemma: in-range reads, negative wrap, and the
exact out-of-range error condition. -/
theorem npIndex_spec (n : ℕ) (f : ℕ → ℤ) (i : ℤ) :
    (0 ≤ i → i < (n : ℤ) → npIndex n f i = .ok (f i.toNat)) ∧
    (-(n : ℤ) ≤ i → i < 0 → npIndex n f i = .ok (f ((n : ℤ) + i).toNat)) ∧
    (npIndex n f i = .error .indexError ↔ i < -(n : ℤ) ∨ (n : ℤ) ≤ i) := by
  unfold npIndex
  refine ⟨fun h1 h2 => by rw [if_pos ⟨h1, h2⟩], fun h1 h2 => ?_, ?_⟩
  · rw [if_neg (by omega), if_pos ⟨h1, h2⟩]
  · split_ifs with h1 h2 <;> simp <;> omega

/-- `npIndex` succeeds for every index in `[-n, n)`. -/
theorem npIndex_isOk (n : ℕ) (f : ℕ → ℤ) (i : ℤ) (h1 : -(n : ℤ) ≤ i)
    (h2 : i < (n : ℤ)) : ∃ v, npIndex n f i = .ok v := by
  unfold npIndex
  split_ifs with hA hB
  · exact ⟨_, rfl⟩
  · exact ⟨_, rfl⟩
  · omega

/-- C4: `convert_px` returns the point unchanged when the two levels
are equal (no arithmetic is applied to the coordinates), and for
distinct levels multiplies both coordinates by the between-level
scaling factor, with no rounding to integers. -/
theorem convertPx_identity_and_scaling (st : MRIState) (p : ℚ × ℚ)
    (from_level to_level : ℤ) (f : ℚ) :
    MRI.convert_px st p from_level from_level = .ok p ∧
    (from_level ≠ to_level →
      MRI.between_level_scaling_factor st from_level to_level = .ok f →
      MRI.convert_px st p from_level to_level = .ok (p.1 * f, p.2 * f)) := by
  refine ⟨by simp [MRI.convert_px], fun hne hf => ?_⟩
  rw [MRI.convert_px, if_neg hne, hf, exceptBind_ok]

/-- Witness for `convertPx_identity_and_scaling` on the spec's example
pyramid (factors 1 and 2): identity at level 0, and point (100,200)
at level 0 maps to (50,100) at level 1. -/
theorem convertPx_identity_and_scaling_witness :
    MRI.convert_px exSt2 (100, 200) 0 0 = .ok (100, 200) ∧
    MRI.convert_px exSt2 (100, 200) 0 1 = .ok (50, 100) := by
  have h := convertPx_identity_and_scaling exSt2 (100, 200) 0 1 (1 / 2)
  refine ⟨h.1, ?_⟩
  have hf : MRI.between_level_scaling_factor exSt2 0 1 = .ok (1 / 2) := by
    norm_num [MRI.between_level_scaling_factor, npIndex, exSt2, exceptBind_ok]
  rw [h.2 (by decide) hf]
  norm_num

/-- C8 (amended): `extent` and `between_level_scaling_factor` fail
(with a numpy `IndexError`, not a dedicated invalid-level error) only
for levels outside `[-levelCount, levelCount)`: negative levels in
`[-levelCount, 0)` wrap around to index from the end, numpy-style,
and return a result for the wrapped level. -/
theorem extent_scalingFactor_level_wrap (st : MRIState)
    (level from_level to_level : ℤ) :
    (MRI.extent st level = .error .indexError ↔
      level < -(st.n : ℤ) ∨ (st.n : ℤ) ≤ level) ∧
    (-(st.n : ℤ) ≤ level → level < 0 →
      MRI.extent st level =
        .ok (st.widths ((st.n : ℤ) + level).toNat,
             st.heights ((st.n : ℤ) + level).toNat)) ∧
    (MRI.between_level_scaling_factor st from_level to_level =
        .error .indexError ↔
      ((from_level < -(st.n : ℤ) ∨ (st.n : ℤ) ≤ from_level) ∨
        (to_level < -(st.n : ℤ) ∨ (st.n : ℤ) ≤ to_level))) := by
  have hw := npIndex_spec st.n st.widths level
  have hh := npIndex_spec st.n st.heights level
  have ha := npIndex_spec st.n st.factors from_level
  have hb := npIndex_spec st.n st.factors to_level
  refine ⟨?_, fun h1 h2 => ?_, ?_⟩
  · unfold MRI.extent
    by_cases hc : level < -(st.n : ℤ) ∨ (st.n : ℤ) ≤ level
    · rw [hw.2.2.mpr hc, exceptBind_error]
      simp [hc]
    · rcases (by omega :
          (0 ≤ level ∧ level < (st.n : ℤ)) ∨
            (-(st.n : ℤ) ≤ level ∧ level < 0)) with h | h
      · rw [hw.1 h.1 h.2, exceptBind_ok, hh.1 h.1 h.2, exceptBind_ok]
        simp [hc]
      · rw [hw.2.1 h.1 h.2, exceptBind_ok, hh.2.1 h.1 h.2, exceptBind_ok]
        simp [hc]
  · unfold MRI.extent
    rw [hw.2.1 h1 h2, exceptBind_ok, hh.2.1 h1 h2, exceptBind_ok]
  · unfold MRI.between_level_scaling_factor
    by_cases hf : from_level < -(st.n : ℤ) ∨ (st.n : ℤ) ≤ from_level
    · rw [ha.2.2.mpr hf, exceptBind_error]
      simp [hf]
    · obtain ⟨v, hv⟩ := npIndex_isOk st.n st.factors from_level (by omega) (by omega)
      rw [hv, exceptBind_ok]
      by_cases ht : to_level < -(st.n : ℤ) ∨ (st.n : ℤ) ≤ to_level
      · rw [hb.2.2.mpr ht, exceptBind_error]
        simp [hf, ht]
      · obtain ⟨u, hu⟩ := npIndex_isOk st.n st.factors to_level (by omega) (by omega)
        rw [hu, exceptBind_ok]
        simp [hf, ht]

/-- Counterexample to C8 as stated: on a two-level pyramid, the
negative levels −1 and −2 are outside `[0, levelCount())`, yet
`extent`(−1) succeeds (returning the last level's extent) and
`between_level_scaling_factor`(−1, −2) succeeds — no invalid-level
failure is raised for negative in-wrap-range levels. -/
theorem extent_negative_level_wraps_cex :
    MRI.extent exSt2 (-1) = .ok (50, 50) ∧
    MRI.between_level_scaling_factor exSt2 (-1) (-2) = .ok 2 := by
  constructor
  · rfl
  · norm_num [MRI.between_level_scaling_factor, npIndex, exSt2, exceptBind_ok]

/-- Witness for `extent_scalingFactor_level_wrap` on the two-level
pyramid: level 2 fails, level −1 wraps to level 1, and scaling with
from-level −3 (out of wrap range) fails. -/
theorem extent_scalingFactor_level_wrap_witness :
    MRI.extent exSt2 2 = .error .indexError ∧
    MRI.extent exSt2 (-1) = .ok (50, 50) ∧
    MRI.between_level_scaling_factor exSt2 (-3) 0 = .error .indexError := by
  refine ⟨((extent_scalingFactor_level_wrap exSt2 2 0 0).1).mpr (by decide), ?_, ?_⟩
  · rw [(extent_scalingFactor_level_wrap exSt2 (-1) 0 0).2.1 (by decide) (by decide)]
    rfl
  · exact ((extent_scalingFactor_level_wrap exSt2 0 (-3) 0).2.2).mpr (by decide)

/-- C2 (amended): `get_region_px` raises the single error kind
`RuntimeError` for both failure modes, distinguished only by message:
the level message exactly when `level` is outside `[0, levelCount())`,
and — given a valid level — the extent message exactly when
`x0 >= width(level)`, `y0 >= height(level)`, `x0+width > width(level)`
or `y0+height > height(level)`.  A negative origin is not itself
rejected (there is no `x0 >= 0`/`y0 >= 0` check). -/
theorem getRegion_error_conditions (st : MRIState) (stor : Storage)
    (x0 y0 width height level : ℤ) (m : ℕ) :
    (MRI.get_region_px st stor x0 y0 width height level m =
        .error (.runtimeError "requested level does not exist") ↔
      level < 0 ∨ (st.n : ℤ) ≤ level) ∧
    (0 ≤ level → level < (st.n : ℤ) →
      (MRI.get_region_px st stor x0 y0 width height level m =
          .error (.runtimeError "region out of layer's extent") ↔
        st.widths level.toNat ≤ x0 ∨ st.heights level.toNat ≤ y0 ∨
          st.widths level.toNat < x0 + width ∨
          st.heights level.toNat < y0 + height)) ∧
    (∀ e, MRI.get_region_px st stor x0 y0 width height level m = .error e →
      ∃ msg, e = .runtimeError msg) := by
  unfold MRI.get_region_px
  split_ifs with h1 h2
  · refine ⟨by simp [h1], fun ha hb => by exfalso; omega, fun e he => ?_⟩
    cases he
    exact ⟨_, rfl⟩
  · refine ⟨?_, fun ha hb => by simp [h2], fun e he => ?_⟩
    · constructor
      · intro hc
        exact absurd (Err.runtimeError.inj (Except.error.inj hc)) (by decide)
      · intro hc
        exfalso
        omega
    · cases he
      exact ⟨_, rfl⟩
  · refine ⟨?_, fun ha hb => ?_, fun e he => by simp at he⟩
    · constructor
      · intro hc
        simp at hc
      · intro hc
        exfalso
        omega
    · constructor
      · intro hc
        simp at hc
      · intro hc
        exact absurd hc h2

/-- Counterexample to C2 as stated: a region with negative origin
(−1, −1) on the 100×100 level passes the code's bounds check (there is
no non-negativity test), so no `OutOfBoundsError` — no error at all —
is raised; the slices `[-1:1]` wrap numpy-style to the empty range
99:1 and the read returns an empty 0×0 single-channel buffer. -/
theorem getRegion_negative_origin_accepted_cex :
    Except.map (fun im => (im.h, im.w, im.c, im.dtypeMod))
      (MRI.get_region_px exSt exStor (-1) (-1) 2 2 0 256) =
      .ok (0, 0, 1, 256) := rfl

/-- Witness for `getRegion_error_conditions`: on the one-level 100×100
pyramid, level 5 yields the level message, and an in-level read at
x0 = 95 of width 10 yields the extent message. -/
theorem getRegion_error_conditions_witness :
    MRI.get_region_px exSt exStor 0 0 10 10 5 256 =
      .error (.runtimeError "requested level does not exist") ∧
    MRI.get_region_px exSt exStor 95 0 10 10 0 256 =
      .error (.runtimeError "region out of layer's extent") := by
  refine ⟨((getRegion_error_conditions exSt exStor 0 0 10 10 5 256).1).mpr
    (by decide), ?_⟩
  exact ((getRegion_error_conditions exSt exStor 95 0 10 10 0 256).2.1
    (by decide) (by decide)).mpr (by decide)

/-- C3 (amended): for valid levels, `between_level_scaling_factor`
returns the ratio of the STORED downsample factors — which
`MRI.__init__` keeps in an integer array, truncating any non-integral
descriptor factor — and equals exactly 1 when the two levels coincide
(the stored factor being a nonzero integer, the division of a value
by itself is exact). -/
theorem scalingFactor_stored_integer_ratio (st : MRIState)
    (from_level to_level : ℤ)
    (h1 : 0 ≤ from_level) (h2 : from_level < (st.n : ℤ))
    (h3 : 0 ≤ to_level) (h4 : to_level < (st.n : ℤ)) :
    MRI.between_level_scaling_factor st from_level to_level =
      .ok ((st.factors from_level.toNat : ℚ) / (st.factors to_level.toNat : ℚ)) ∧
    (from_level = to_level → st.factors from_level.toNat ≠ 0 →
      MRI.between_level_scaling_factor st from_level to_level = .ok 1) := by
  have ha := (npIndex_spec st.n st.factors from_level).1 h1 h2
  have hb := (npIndex_spec st.n st.factors to_level).1 h3 h4
  constructor
  · unfold MRI.between_level_scaling_factor
    rw [ha, exceptBind_ok, hb, exceptBind_ok]
  · intro heq hnz
    subst heq
    unfold MRI.between_level_scaling_factor
    rw [ha, exceptBind_ok, exceptBind_ok]
    congr 1
    exact div_self (Int.cast_ne_zero.mpr hnz)

/-- Counterexample to C3 as stated: with descriptor downsample factors
1 and 5/2 (both positive reals), the stored integer factors are 1 and
2, so the scaling factor from level 0 to level 1 is 1/2 — not the
descriptor ratio 1/(5/2) = 2/5. -/
theorem scalingFactor_truncated_factor_cex :
    ((mriInit (some exDesc25)) >>= fun st =>
        MRI.between_level_scaling_factor st 0 1) = .ok (1 / 2) ∧
    (1 / 2 : ℚ) ≠ 1 / (5 / 2) := by
  constructor
  · norm_num [mriInit, initLoop, reqField, npWriteIdx, npIndex, pyInt, Rat.floor,
      exDesc25, exceptBind_ok, MRI.between_level_scaling_factor]
  · norm_num

/-- Witness for `scalingFactor_stored_integer_ratio` on the two-level
pyramid with stored factors 1 and 2: ratio 1/2 between levels 0 and 1,
and exactly 1 at (1,1). -/
theorem scalingFactor_stored_integer_ratio_witness :
    MRI.between_level_scaling_factor exSt2 0 1 = .ok ((1 : ℚ) / 2) ∧
    MRI.between_level_scaling_factor exSt2 1 1 = .ok 1 := by
  have h := scalingFactor_stored_integer_ratio exSt2 0 1
    (by decide) (by decide) (by decide) (by decide)
  have h2 := scalingFactor_stored_integer_ratio exSt2 1 1
    (by decide) (by decide) (by decide) (by decide)
  refine ⟨?_, h2.2 rfl (by decide)⟩
  rw [h.1]
  norm_num [exSt2]

/-- `npSliceBound` is the identity on in-range non-negative
endpoints. -/
theorem npSliceBound_eq (v : ℤ) (n : ℕ) (h0 : 0 ≤ v) (hn : v ≤ (n : ℤ)) :
    npSliceBound v n = v.toNat := by
  unfold npSliceBound
  rw [if_neg (by omega), min_eq_left hn]

set_option linter.unreachableTactic false in
set_option linter.unusedTactic false in
/-- A successful `get_region_px` returns exactly the numpy slice of the
stored plane, cast to the requested dtype. -/
theorem getRegion_ok_elim (st : MRIState) (stor : Storage)
    (x0 y0 width height level : ℤ) (m : ℕ) (img : Img)
    (hr : MRI.get_region_px st stor x0 y0 width height level m = .ok img) :
    img = ⟨npSliceBound (y0 + height) (stor.shapeH level.toNat) -
             npSliceBound y0 (stor.shapeH level.toNat),
           npSliceBound (x0 + width) (stor.shapeW level.toNat) -
             npSliceBound x0 (stor.shapeW level.toNat),
           stor.channels, m,
           fun i j ch => stor.px level.toNat
             (npSliceBound y0 (stor.shapeH level.toNat) + i)
             (npSliceBound x0 (stor.shapeW level.toNat) + j) ch % m⟩ := by
  unfold MRI.get_region_px at hr
  split_ifs at hr
  all_goals first
    | exact hr.symm
    | exact (Except.ok.inj hr).symm
    | simp at hr

/-- C5: for a valid level whose stored plane shape agrees with the
descriptor extent (the storage contract), reading the full-extent
region from (0,0) equals reading the whole plane, for every pixel
type. -/
theorem getRegion_full_extent_eq_getPlane (st : MRIState) (stor : Storage)
    (level : ℤ) (m : ℕ)
    (h1 : 0 ≤ level) (h2 : level < (st.n : ℤ))
    (hW : 0 < st.widths level.toNat) (hH : 0 < st.heights level.toNat)
    (hsW : (stor.shapeW level.toNat : ℤ) = st.widths level.toNat)
    (hsH : (stor.shapeH level.toNat : ℤ) = st.heights level.toNat) :
    MRI.get_region_px st stor 0 0 (st.widths level.toNat)
        (st.heights level.toNat) level m =
      MRI.get_plane st stor level m := by
  have e1 : npSliceBound 0 (stor.shapeH level.toNat) = 0 := by
    rw [npSliceBound_eq 0 _ le_rfl (by omega)]
    rfl
  have e2 : npSliceBound 0 (stor.shapeW level.toNat) = 0 := by
    rw [npSliceBound_eq 0 _ le_rfl (by omega)]
    rfl
  have e3 : npSliceBound (0 + st.heights level.toNat) (stor.shapeH level.toNat) =
      stor.shapeH level.toNat := by
    rw [zero_add, npSliceBound_eq _ _ (by omega) (by omega)]
    omega
  have e4 : npSliceBound (0 + st.widths level.toNat) (stor.shapeW level.toNat) =
      stor.shapeW level.toNat := by
    rw [zero_add, npSliceBound_eq _ _ (by omega) (by omega)]
    omega
  unfold MRI.get_region_px MRI.get_plane
  rw [if_neg (by omega), if_neg (by omega), if_neg (by omega)]
  refine congrArg Except.ok ?_
  refine Img.ext ?_ ?_ rfl rfl ?_
  · dsimp only
    rw [e3, e1]
    omega
  · dsimp only
    rw [e4, e2]
    omega
  · funext i j ch
    dsimp only
    rw [e1, e2]
    simp

/-- Witness for `getRegion_full_extent_eq_getPlane`: on the two-level
pyramid with matching 50×50 stored plane at level 1, the full-extent
read equals the plane read (with pixel modulus 7). -/
theorem getRegion_full_extent_eq_getPlane_witness :
    MRI.get_region_px exSt2 exStor2 0 0 50 50 1 7 =
      MRI.get_plane exSt2 exStor2 1 7 :=
  getRegion_full_extent_eq_getPlane exSt2 exStor2 1 7
    (by decide) (by decide) (by decide) (by decide) (by decide) (by decide)

/-- C9: `get_polygonal_region_px` ignores its `as_type` argument — the
returned buffer is identical for any two pixel types, and on success
its dtype is the hard-coded uint8 (modulus 256). -/
theorem polygonalRegion_ignores_asType (st : MRIState) (stor : Storage)
    (contour : Polygon) (level border : ℤ) (t1 t2 : ℕ) (img : Img) :
    MRI.get_polygonal_region_px st stor contour level border t1 =
      MRI.get_polygonal_region_px st stor contour level border t2 ∧
    (MRI.get_polygonal_region_px st stor contour level border t1 = .ok img →
      img.dtypeMod = 256) := by
  refine ⟨rfl, fun h => ?_⟩
  unfold MRI.get_polygonal_region_px at h
  cases hbox : MRI.polyBox st contour level border with
  | error e =>
    rw [hbox, exceptBind_error] at h
    simp at h
  | ok box =>
    rw [hbox, exceptBind_ok] at h
    obtain ⟨x0, y0, x1, y1⟩ := box
    dsimp only at h
    cases hr : MRI.get_region_px st stor x0 y0 (x1 - x0) (y1 - y0) level 256 with
    | error e =>
      rw [hr, exceptBind_error] at h
      simp at h
    | ok base =>
      rw [hr, exceptBind_ok] at h
      have hd : base.dtypeMod = 256 := by
        simp only [getRegion_ok_elim st stor x0 y0 (x1 - x0) (y1 - y0) level
          256 base hr]
      unfold maskOutside at h
      by_cases h0 : base.h = 0
      · rw [if_pos h0] at h
        rw [← Except.ok.inj h]
        exact hd
      · rw [if_neg h0] at h
        by_cases hc : base.w = base.c ∨ base.w = 1
        · rw [if_pos hc] at h
          rw [← Except.ok.inj h]
          exact hd
        · rw [if_neg hc] at h
          simp at h

/-! ## Evaluation of the spec triangle example -/

theorem exTri_minX : Polygon.minX exTri = 10 := by
  norm_num [Polygon.minX, exTri, min_def]

theorem exTri_minY : Polygon.minY exTri = 10 := by
  norm_num [Polygon.minY, exTri, min_def]

theorem exTri_maxX : Polygon.maxX exTri = 50 := by
  norm_num [Polygon.maxX, exTri, max_def]

theorem exTri_maxY : Polygon.maxY exTri = 50 := by
  norm_num [Polygon.maxY, exTri, max_def]

theorem pyInt_ten : pyInt 10 = 10 := by norm_num [pyInt, Rat.floor]

theorem pyInt_fifty : pyInt 50 = 50 := by norm_num [pyInt, Rat.floor]

/-- The triangle's clamped bounding box on the 100×100 level with
border 0 is (10,10)–(50,50). -/
theorem polyEval_box : MRI.polyBox exSt exTri 0 0 = .ok (10, 10, 50, 50) := by
  unfold MRI.polyBox
  rw [show MRI.extent exSt 0 = .ok (100, 100) from rfl, exceptBind_ok]
  rw [exTri_minX, exTri_minY, exTri_maxX, exTri_maxY, pyInt_ten, pyInt_fifty]
  norm_num

/-- Translating the triangle by (−10, −10) gives vertices
(0,0), (40,0), (0,40). -/
theorem polyEval_translate :
    Polygon.translate exTri (-((10 : ℤ) : ℚ)) (-((10 : ℤ) : ℚ)) = exTriT := by
  norm_num [Polygon.translate, exTri, exTriT]

/-- The rectangular read for the triangle's box returns the 40×40
buffer of 7s. -/
theorem polyEval_region :
    MRI.get_region_px exSt exStor 10 10 (50 - 10) (50 - 10) 0 256 =
      .ok exImgBase := rfl

/-- Full evaluation of the polygonal read on the spec triangle over the
single-channel store, for every `as_type` argument: the 40×40×1 read
buffer has width 40 ≠ channels 1 and width ≠ 1, so the masking loop's
broadcast raises `ValueError` and no buffer is returned. -/
theorem polyEval_result (t : ℕ) :
    MRI.get_polygonal_region_px exSt exStor exTri 0 0 t =
      .error .valueError := by
  unfold MRI.get_polygonal_region_px
  rw [polyEval_box, exceptBind_ok]
  show (do
    let img ← MRI.get_region_px exSt exStor 10 10 (50 - 10) (50 - 10) 0 256
    maskOutside img
      (exTri.translate (-((10 : ℤ) : ℚ)) (-((10 : ℤ) : ℚ)))) = _
  rw [polyEval_region, exceptBind_ok]
  rfl

/-- The rectangular read for the triangle's box over the 40-channel
store returns the 40×40×40 buffer of 7s. -/
theorem polyEval_region40 :
    MRI.get_region_px exSt exStor40 10 10 (50 - 10) (50 - 10) 0 256 =
      .ok exImgBase40 := rfl

/-- Full evaluation of the polygonal read on the spec triangle over the
40-channel store (width = channels, the shape on which the masking
loop completes): the result is the channel-masked buffer. -/
theorem polyEval_result40 (t : ℕ) :
    MRI.get_polygonal_region_px exSt exStor40 exTri 0 0 t =
      .ok exMasked40 := by
  unfold MRI.get_polygonal_region_px
  rw [polyEval_box, exceptBind_ok]
  show (do
    let img ← MRI.get_region_px exSt exStor40 10 10 (50 - 10) (50 - 10) 0 256
    maskOutside img
      (exTri.translate (-((10 : ℤ) : ℚ)) (-((10 : ℤ) : ℚ)))) = _
  rw [polyEval_region40, exceptBind_ok, polyEval_translate]
  rfl

/-- The boundary vertex (0,0) of the translated triangle is NOT
`within` it: shapely membership is strict-interior. -/
theorem within_exTriT_00 : Polygon.within ((0 : ℚ), (0 : ℚ)) exTriT = false := by
  norm_num [Polygon.within, Polygon.edges, exTriT, onSegment, rayCrosses,
    List.countP, List.countP.go, min_def, max_def]

/-- The point (1,1) is strictly inside the translated triangle. -/
theorem within_exTriT_11 : Polygon.within ((1 : ℚ), (1 : ℚ)) exTriT = true := by
  norm_num [Polygon.within, Polygon.edges, exTriT, onSegment, rayCrosses,
    List.countP, List.countP.go, min_def, max_def]

/-- The point (39,39) lies outside the hypotenuse of the translated
triangle. -/
theorem within_exTriT_39 : Polygon.within ((39 : ℚ), (39 : ℚ)) exTriT = false := by
  norm_num [Polygon.within, Polygon.edges, exTriT, onSegment, rayCrosses,
    List.countP, List.countP.go, min_def, max_def]

/-- The point (0,1) lies ON the left edge of the translated triangle,
hence not strictly within it. -/
theorem within_exTriT_01 : Polygon.within ((0 : ℚ), (1 : ℚ)) exTriT = false := by
  norm_num [Polygon.within, Polygon.edges, exTriT, onSegment, rayCrosses,
    List.countP, List.countP.go, min_def, max_def]

/-- Eliminator for a successful masking pass: either the buffer was
empty of rows and is returned unchanged, or width = channels or
width = 1 and every sample is multiplied by the (channel-indexed, or
constant when width = 1) containment mask. -/
theorem maskOutside_ok_elim (img out : Img) (contour : Polygon)
    (h : maskOutside img contour = .ok out) :
    (img.h = 0 ∧ out = img) ∨
    ((img.w = img.c ∨ img.w = 1) ∧
      out = { img with
        px := fun i j ch =>
          img.px i j ch *
            (if Polygon.within (((if img.w = 1 then (0 : ℕ) else ch) : ℚ),
                (i : ℚ)) contour then 1 else 0) % img.dtypeMod }) := by
  unfold maskOutside at h
  by_cases h0 : img.h = 0
  · rw [if_pos h0] at h
    exact Or.inl ⟨h0, (Except.ok.inj h).symm⟩
  · rw [if_neg h0] at h
    by_cases hc : img.w = img.c ∨ img.w = 1
    · rw [if_pos hc] at h
      exact Or.inr ⟨hc, (Except.ok.inj h).symm⟩
    · rw [if_neg hc] at h
      simp at h

/-- Eliminator for a successful polygonal read with a known bounding
box: the rectangular read succeeded and the masking pass turned its
buffer into the result. -/
theorem polygonal_ok_elim (st : MRIState) (stor : Storage)
    (contour : Polygon) (level border : ℤ) (t : ℕ) (x0 y0 x1 y1 : ℤ)
    (img : Img)
    (hbox : MRI.polyBox st contour level border = .ok (x0, y0, x1, y1))
    (h : MRI.get_polygonal_region_px st stor contour level border t = .ok img) :
    ∃ base,
      MRI.get_region_px st stor x0 y0 (x1 - x0) (y1 - y0) level 256 =
        .ok base ∧
      maskOutside base (contour.translate (-(x0 : ℚ)) (-(y0 : ℚ))) =
        .ok img := by
  unfold MRI.get_polygonal_region_px at h
  rw [hbox, exceptBind_ok] at h
  dsimp only at h
  cases hr : MRI.get_region_px st stor x0 y0 (x1 - x0) (y1 - y0) level 256 with
  | error e =>
    rw [hr, exceptBind_error] at h
    simp at h
  | ok base =>
    rw [hr, exceptBind_ok] at h
    exact ⟨base, rfl, h⟩

/-- C1 (amended/corrected): the masking loop of
`get_polygonal_region_px` completes only when the read buffer's width
equals its channel count or equals 1 — otherwise the broadcast in
`img[i,] = img[i,] * lm` raises `ValueError` (this is what happens on
the spec's 40×40 single-channel triangle example, which returns no
buffer at all).  When it completes on a buffer with at least one row,
sample (j, i, ch) keeps the underlying read's value iff the point the
code effectively tests — (ch, i) under the mis-broadcast channel
indexing, or (0, i) when the width is 1 — lies STRICTLY within the
translated polygon (shapely `Point.within` is boundary-exclusive), and
is zeroed otherwise. -/
theorem polygonalRegion_mask_strict_interior (st : MRIState) (stor : Storage)
    (contour : Polygon) (level border : ℤ) (t : ℕ) (x0 y0 x1 y1 : ℤ)
    (img base : Img)
    (hbox : MRI.polyBox st contour level border = .ok (x0, y0, x1, y1))
    (hbase : MRI.get_region_px st stor x0 y0 (x1 - x0) (y1 - y0) level 256 =
      .ok base)
    (h : MRI.get_polygonal_region_px st stor contour level border t = .ok img)
    (hh : base.h ≠ 0) (i j ch : ℕ) :
    (base.w = base.c ∨ base.w = 1) ∧
    img.px i j ch =
      if Polygon.within (((if base.w = 1 then (0 : ℕ) else ch) : ℚ), (i : ℚ))
          (contour.translate (-(x0 : ℚ)) (-(y0 : ℚ)))
        then base.px i j ch else 0 := by
  obtain ⟨base2, hb2, hm⟩ := polygonal_ok_elim st stor contour level border t
    x0 y0 x1 y1 img hbox h
  rw [hbase] at hb2
  obtain rfl := Except.ok.inj hb2
  rcases maskOutside_ok_elim base img _ hm with ⟨h0, rfl⟩ | ⟨hc, rfl⟩
  · exact absurd h0 hh
  · refine ⟨hc, ?_⟩
    have hb := getRegion_ok_elim st stor x0 y0 (x1 - x0) (y1 - y0) level 256
      base hbase
    dsimp only
    by_cases hw : Polygon.within (((if base.w = 1 then (0 : ℕ) else ch) : ℚ),
        (i : ℚ)) (contour.translate (-(x0 : ℚ)) (-(y0 : ℚ))) = true
    · rw [if_pos hw, if_pos hw, hb]
      dsimp only
      omega
    · rw [if_neg hw, if_neg hw]
      simp

/-- Counterexample to C1 as stated: on the spec triangle (vertices
(10,10), (50,10), (10,50), level 0, border 0) over the single-channel
constant-7 storage, NO 40×40 buffer with per-pixel containment masking
is returned: the masking loop raises `ValueError` (broadcasting the
40-entry line mask onto the (40, 1)-shaped row fails).  Moreover the
membership test the code uses is boundary-exclusive: the translated
boundary vertex (0,0) is not `within` the translated polygon, so even
on shapes where the loop completes a boundary pixel is zeroed, not
retained. -/
theorem polygonalRegion_boundary_pixel_zeroed_cex :
    MRI.get_polygonal_region_px exSt exStor exTri 0 0 256 =
      .error .valueError ∧
    Polygon.within ((0 : ℚ), (0 : ℚ)) exTriT = false ∧
    Polygon.within ((1 : ℚ), (1 : ℚ)) exTriT = true :=
  ⟨polyEval_result 256, within_exTriT_00, within_exTriT_11⟩

/-- Witness for `polygonalRegion_mask_strict_interior` on the
40-channel store: in the returned buffer, sample (1,1,1) — whose
tested point (1,1) is interior — keeps value 7, while sample (1,1,0) —
whose tested point (0,1) lies on the boundary — is zeroed. -/
theorem polygonalRegion_mask_strict_interior_witness :
    exMasked40.px 1 1 1 = 7 ∧ exMasked40.px 1 1 0 = 0 := by
  have h1 := polygonalRegion_mask_strict_interior exSt exStor40 exTri 0 0 256
    10 10 50 50 exMasked40 exImgBase40 polyEval_box polyEval_region40
    (polyEval_result40 256) (by decide) 1 1 1
  have h0 := polygonalRegion_mask_strict_interior exSt exStor40 exTri 0 0 256
    10 10 50 50 exMasked40 exImgBase40 polyEval_box polyEval_region40
    (polyEval_result40 256) (by decide) 1 1 0
  rw [polyEval_translate] at h1 h0
  constructor
  · rw [h1.2]
    norm_num [exImgBase40, within_exTriT_11, -Prod.mk_one_one]
  · rw [h0.2]
    norm_num [exImgBase40, within_exTriT_01]

/-- C10 names a code bug: the masking pass does NOT leave contained
pixels untouched.  On the single-channel store the loop raises
`ValueError` outright (no buffer at all); on the 40-channel store —
width = channels, the one shape family where the broadcast succeeds —
the mask is indexed by the CHANNEL instead of the column, so the
strictly-contained sample at row 1, column 1, channel 0 reads 7 in the
underlying rectangular buffer but 0 in the masked result, even though
its pixel point (1,1) is strictly within the translated polygon. -/
theorem polygonalRegion_masking_broadcast_bug :
    MRI.get_polygonal_region_px exSt exStor exTri 0 0 256 =
      .error .valueError ∧
    Except.map (fun im => im.px 1 1 0)
      (MRI.get_polygonal_region_px exSt exStor40 exTri 0 0 256) = .ok 0 ∧
    Except.map (fun im => im.px 1 1 0)
      (MRI.get_region_px exSt exStor40 10 10 (50 - 10) (50 - 10) 0 256) =
      .ok 7 ∧
    Polygon.within ((1 : ℚ), (1 : ℚ)) exTriT = true := by
  refine ⟨polyEval_result 256, ?_, ?_, within_exTriT_11⟩
  · rw [polyEval_result40 256]
    simp only [Except.map]
    refine congrArg Except.ok ?_
    norm_num [exMasked40, within_exTriT_01]
  · rw [polyEval_region40]
    rfl

/-- C6 (amended/corrected): the polygonal reader computes the
polygon's bounding box by truncating each of the four bounds to an
integer (Python `int`, i.e. toward zero — floor for the non-negative
coordinates of an image), expands it by `border`, clamps the low
corner at 0 and the high corner at the level extent, and translates
the polygon by (−x0, −y0); on the spec triangle the box is
(10,10)–(50,50), translated vertex (0,0) corresponds to original
(10,10), and the underlying RECTANGULAR read is 40×40 — but the
polygonal call itself then raises `ValueError` in the masking loop on
the single-channel store and returns no buffer. -/
theorem polyBox_bounding_box_spec (st : MRIState) (contour : Polygon)
    (level border : ℤ) (W H : ℤ)
    (hext : MRI.extent st level = .ok (W, H)) :
    MRI.polyBox st contour level border =
      .ok (max 0 (pyInt contour.minX - border),
           max 0 (pyInt contour.minY - border),
           min (pyInt contour.maxX + border) W,
           min (pyInt contour.maxY + border) H) ∧
    MRI.polyBox exSt exTri 0 0 = .ok (10, 10, 50, 50) ∧
    Polygon.translate exTri (-((10 : ℤ) : ℚ)) (-((10 : ℤ) : ℚ)) = exTriT ∧
    Except.map (fun im => (im.h, im.w))
      (MRI.get_region_px exSt exStor 10 10 (50 - 10) (50 - 10) 0 256) =
      .ok (40, 40) ∧
    MRI.get_polygonal_region_px exSt exStor exTri 0 0 256 =
      .error .valueError := by
  refine ⟨?_, polyEval_box, polyEval_translate, ?_, polyEval_result 256⟩
  · unfold MRI.polyBox
    rw [hext, exceptBind_ok]
  · rw [polyEval_region]
    rfl

/-- Counterexample to C6 as stated: the bounding box is computed as
claimed, but the final conjunct of the claim — that the call returns a
40×40 buffer — fails: on the spec example the masking loop raises
`ValueError` and `get_polygonal_region_px` returns no buffer. -/
theorem polyBox_returned_buffer_cex :
    MRI.polyBox exSt exTri 0 0 = .ok (10, 10, 50, 50) ∧
    MRI.get_polygonal_region_px exSt exStor exTri 0 0 256 =
      .error .valueError :=
  ⟨polyEval_box, polyEval_result 256⟩

/-- Witness for `polyBox_bounding_box_spec`: with border 5 the
triangle's box on the 100×100 level is (5,5)–(55,55). -/
theorem polyBox_bounding_box_spec_witness :
    MRI.polyBox exSt exTri 0 5 = .ok (5, 5, 55, 55) := by
  rw [(polyBox_bounding_box_spec exSt exTri 0 5 100 100 rfl).1]
  rw [exTri_minX, exTri_minY, exTri_maxX, exTri_maxY, pyInt_ten, pyInt_fifty]
  norm_num

/-- `npWriteIdx` succeeds for every index in `[-n, n)`. -/
theorem npWriteIdx_isOk (n : ℕ) (f : ℕ → ℤ) (i v : ℤ) (h1 : -(n : ℤ) ≤ i)
    (h2 : i < (n : ℤ)) : ∃ g, npWriteIdx n f i v = .ok g := by
  unfold npWriteIdx
  by_cases h0 : 0 ≤ i
  · exact ⟨_, by rw [if_pos ⟨h0, h2⟩]⟩
  · exact ⟨_, by rw [if_neg (by omega), if_pos ⟨h1, by omega⟩]⟩

/-- An entry with all four fields present and a writable level index
is processed without raising, handing updated accumulators to the rest
of the loop. -/
theorem initLoop_step_ok (n : ℕ) (e : RawEntry) (rest : List RawEntry)
    (ws hs fs : ℕ → ℤ) (hok : entryOk n e) :
    ∃ ws2 hs2 fs2,
      initLoop n ws hs fs (e :: rest) = initLoop n ws2 hs2 fs2 rest := by
  obtain ⟨hw, hh, hd, l, hl, h1, h2⟩ := hok
  obtain ⟨w, hw2⟩ := Option.ne_none_iff_exists'.mp hw
  obtain ⟨hgt, hh2⟩ := Option.ne_none_iff_exists'.mp hh
  obtain ⟨d, hd2⟩ := Option.ne_none_iff_exists'.mp hd
  obtain ⟨ws2, hws⟩ := npWriteIdx_isOk n ws l w h1 h2
  obtain ⟨hs2, hhs⟩ := npWriteIdx_isOk n hs l hgt h1 h2
  obtain ⟨fs2, hfs⟩ := npWriteIdx_isOk n fs l (pyInt d) h1 h2
  refine ⟨ws2, hs2, fs2, ?_⟩
  rw [initLoop, hw2, hh2, hl, hd2]
  show (do
      let ws2 ← npWriteIdx n ws l w
      let hs2 ← npWriteIdx n hs l hgt
      let fs2 ← npWriteIdx n fs l (pyInt d)
      initLoop n ws2 hs2 fs2 rest) = _
  rw [hws, exceptBind_ok, hhs, exceptBind_ok, hfs, exceptBind_ok]

/-- A prefix of well-formed entries is consumed without raising: the
loop on `pre ++ suf` reduces to the loop on `suf` with some updated
accumulators. -/
theorem initLoop_prefix_ok (n : ℕ) (suf : List RawEntry) :
    ∀ pre : List RawEntry, (∀ a ∈ pre, entryOk n a) →
      ∀ ws hs fs, ∃ ws2 hs2 fs2,
        initLoop n ws hs fs (pre ++ suf) = initLoop n ws2 hs2 fs2 suf := by
  intro pre
  induction pre with
  | nil => exact fun _ ws hs fs => ⟨ws, hs, fs, rfl⟩
  | cons a rest ih =>
    intro hok ws hs fs
    rw [List.cons_append]
    obtain ⟨ws2, hs2, fs2, hstep⟩ := initLoop_step_ok n a (rest ++ suf) ws hs
      fs (hok a (List.mem_cons_self a rest))
    rw [hstep]
    exact ih (fun b hb => hok b (List.mem_cons_of_mem a hb)) ws2 hs2 fs2

/-- The loop raises `KeyError` at its head entry when the entry lacks
`width`, `height` or `level`, or lacks `downsample_factor` while its
level is writable (the column write precedes the factor read, so an
out-of-range level raises `IndexError` first instead). -/
theorem initLoop_head_keyError (n : ℕ) (e : RawEntry) (rest : List RawEntry)
    (ws hs fs : ℕ → ℤ)
    (hbad : e.width = none ∨ e.height = none ∨ e.level = none ∨
      (e.downsample_factor = none ∧
        ∃ l, e.level = some l ∧ -(n : ℤ) ≤ l ∧ l < (n : ℤ))) :
    initLoop n ws hs fs (e :: rest) = .error .keyError := by
  rw [initLoop]
  rcases hbad with hb | hb | hb | ⟨hd, l, hl, h1, h2⟩
  · rw [hb]
    exact rfl
  · cases hA : e.width with
    | none => rfl
    | some w => rw [hb]; exact rfl
  · cases hA : e.width with
    | none => rfl
    | some w =>
      cases hB : e.height with
      | none => rfl
      | some hgt => rw [hb]; exact rfl
  · cases hA : e.width with
    | none => rfl
    | some w =>
      cases hB : e.height with
      | none => rfl
      | some hgt =>
        rw [hl, hd]
        obtain ⟨ws2, hws⟩ := npWriteIdx_isOk n ws l w h1 h2
        obtain ⟨hs2, hhs⟩ := npWriteIdx_isOk n hs l hgt h1 h2
        show (do
            let ws2 ← npWriteIdx n ws l w
            let hs2 ← npWriteIdx n hs l hgt
            let d ← reqField (none : Option ℚ)
            let fs2 ← npWriteIdx n fs l (pyInt d)
            initLoop n ws2 hs2 fs2 rest) = Except.error Err.keyError
        rw [hws, exceptBind_ok, hhs, exceptBind_ok]
        rfl

/-- The loop raises `IndexError` at its head entry when `width`,
`height` and `level` are present but the level index is outside the
writable range `[-n, n)` — whatever the `downsample_factor` field
holds, since the column write precedes its read. -/
theorem initLoop_head_indexError (n : ℕ) (e : RawEntry)
    (rest : List RawEntry) (ws hs fs : ℕ → ℤ) (w hgt l : ℤ)
    (hw : e.width = some w) (hh : e.height = some hgt)
    (hl : e.level = some l)
    (hOOB : l < -(n : ℤ) ∨ (n : ℤ) ≤ l) :
    initLoop n ws hs fs (e :: rest) = .error .indexError := by
  rw [initLoop, hw, hh, hl]
  show (do
      let ws2 ← npWriteIdx n ws l w
      let hs2 ← npWriteIdx n hs l hgt
      let d ← reqField e.downsample_factor
      let fs2 ← npWriteIdx n fs l (pyInt d)
      initLoop n ws2 hs2 fs2 rest) = Except.error Err.indexError
  have hW : npWriteIdx n ws l w = .error .indexError := by
    unfold npWriteIdx
    rw [if_neg (by omega), if_neg (by omega)]
  rw [hW, exceptBind_error]

/-- C7 (amended): `MRI.__init__` fails with `KeyError` when the
pyramid attribute is absent; while looping over the entries (the ones
before the offending entry being well formed) it fails with `KeyError`
when an entry lacks `width`, `height` or `level`, or lacks
`downsample_factor` while its level is writable, and with `IndexError`
when the three dimension fields are present but the entry's level
index falls outside the numpy-writable range `[-n, n)` (n = entry
count; the column write precedes the factor read).  It performs no
further validation: it does NOT reject non-positive dimensions,
duplicated level indices, or the gaps they leave (see the
counterexample), and no distinct `MetadataError` kind exists. -/
theorem mriInit_error_conditions :
    (mriInit none = .error .keyError) ∧
    (∀ (pre : List RawEntry) (e : RawEntry) (post : List RawEntry),
      (∀ a ∈ pre, entryOk (pre ++ e :: post).length a) →
      ((e.width = none ∨ e.height = none ∨ e.level = none ∨
          (e.downsample_factor = none ∧
            ∃ l, e.level = some l ∧
              -(((pre ++ e :: post).length : ℕ) : ℤ) ≤ l ∧
              l < (((pre ++ e :: post).length : ℕ) : ℤ)) →
        mriInit (some (pre ++ e :: post)) = .error .keyError) ∧
      (∀ w hgt l, e.width = some w → e.height = some hgt →
        e.level = some l →
        (l < -(((pre ++ e :: post).length : ℕ) : ℤ) ∨
          (((pre ++ e :: post).length : ℕ) : ℤ) ≤ l) →
        mriInit (some (pre ++ e :: post)) = .error .indexError))) := by
  refine ⟨rfl, fun pre e post hpre => ⟨fun hbad => ?_, ?_⟩⟩
  · obtain ⟨ws2, hs2, fs2, hP⟩ := initLoop_prefix_ok
      (pre ++ e :: post).length (e :: post) pre hpre
      (fun _ => 0) (fun _ => 0) (fun _ => 0)
    simp only [mriInit]
    rw [hP, initLoop_head_keyError _ _ _ _ _ _ hbad, exceptBind_error]
  · intro w hgt l hw hh hl hOOB
    obtain ⟨ws2, hs2, fs2, hP⟩ := initLoop_prefix_ok
      (pre ++ e :: post).length (e :: post) pre hpre
      (fun _ => 0) (fun _ => 0) (fun _ => 0)
    simp only [mriInit]
    rw [hP, initLoop_head_indexError _ _ _ _ _ _ w hgt l hw hh hl hOOB,
      exceptBind_error]

/-- Counterexample to C7 as stated: the malformed descriptor with a
duplicated level 0 (levels 0,0 — not contiguous 0,1) and non-positive
width/height in its first entry is ACCEPTED by `MRI.__init__`: no
`MetadataError` (no error at all) is raised; the second entry simply
overwrites level 0 and level 1 keeps the zero dimensions. -/
theorem mriInit_accepts_malformed_descriptor_cex :
    Except.map
      (fun st => (st.n, st.widths 0, st.heights 0, st.widths 1, st.factors 0))
      (mriInit (some exDescBad)) = .ok (2, 5, 5, 0, 1) := by
  norm_num [mriInit, initLoop, reqField, npWriteIdx, pyInt, Rat.floor,
    exDescBad, exceptBind_ok, Except.map]

/-- Witness for `mriInit_error_conditions`: a single-entry descriptor
whose entry lacks `downsample_factor` (level 0 writable) raises
`KeyError`, and one whose entry has level 5 (outside `[-1, 1)`) raises
`IndexError`. -/
theorem mriInit_error_conditions_witness :
    mriInit (some [(⟨some 0, some 1, some 1, none⟩ : RawEntry)]) =
      .error .keyError ∧
    mriInit (some [(⟨some 5, some 1, some 1, some 1⟩ : RawEntry)]) =
      .error .indexError := by
  constructor
  · exact (mriInit_error_conditions.2 []
      (⟨some 0, some 1, some 1, none⟩ : RawEntry) []
      (fun a ha => absurd ha (List.not_mem_nil a))).1
      (Or.inr (Or.inr (Or.inr ⟨rfl, 0, rfl, by decide, by decide⟩)))
  · exact (mriInit_error_conditions.2 []
      (⟨some 5, some 1, some 1, some 1⟩ : RawEntry) []
      (fun a ha => absurd ha (List.not_mem_nil a))).2
      1 1 5 rfl rfl rfl (Or.inr (by decide))
